import Mathlib

/-!
Shallow embedding of the issue-credential admin routes
(`protocols/issue_credential/v1_0/routes.py`) and the v2.0 credential
proposal message handler
(`protocols/issue_credential/v2_0/handlers/cred_proposal_handler.py`).

External collaborators (storage, connections, wallet, the credential
manager's internals) are represented by their outcomes, supplied in an
environment record per operation; each modelled operation returns its
result (normal return or raised failure), the sequence of observable
effects it performed, and the final persisted exchange record where one
is tracked.
-/

namespace Indy

/-- Exception classes appearing in the sources' `except` clauses. -/
inductive ErrKind
  | credManagerError
  | indyIssuerError
  | indyHolderError
  | ledgerError
  | storageError
  | storageNotFoundError
  | baseModelError
  | walletError
  | jsonDecodeError
  | keyError
  deriving DecidableEq, Repr

/-- Python exception-class matching: a clause for class `c` catches an
instance of class `k` when `k` is `c` or a subclass (`StorageNotFoundError`
subclasses `StorageError`). -/
def ErrKind.catches : ErrKind → ErrKind → Bool
  | .storageError, .storageNotFoundError => true
  | c, k => c == k

/-- Whether an exception of class `k` is caught by an `except (…)` clause
listing the classes `clauses`. -/
def caughtBy (clauses : List ErrKind) (k : ErrKind) : Bool :=
  clauses.any (fun c => c.catches k)

/-- Opaque stand-in for an exception's `.message` / `.roll_up` text. -/
def ErrKind.message : ErrKind → String
  | .credManagerError => "credential manager error"
  | .indyIssuerError => "indy issuer error"
  | .indyHolderError => "indy holder error"
  | .ledgerError => "ledger error"
  | .storageError => "storage error"
  | .storageNotFoundError => "storage record not found"
  | .baseModelError => "base model error"
  | .walletError => "wallet error"
  | .jsonDecodeError => "json decode error"
  | .keyError => "key error"

/-- Who initiated the exchange (`INITIATOR_SELF` / `INITIATOR_EXTERNAL`;
the second constructor is named `remote` here). -/
inductive Initiator
  | self
  | remote
  deriving DecidableEq, Repr

/-- Role in the exchange (`ROLE_ISSUER` / `ROLE_HOLDER`). -/
inductive Role
  | issuer
  | holder
  deriving DecidableEq, Repr

/-- Protocol states of a credential exchange record (`STATE_*`). -/
inductive XState
  | proposalSent
  | proposalReceived
  | offerSent
  | offerReceived
  | requestSent
  | requestReceived
  | credentialIssued
  | credentialReceived
  | ackDone
  | abandoned
  deriving DecidableEq, Repr

/-- Credential preview carried in a proposal (opaque attribute list). -/
structure CredentialPreview where
  attrs : List (String × String)
  deriving DecidableEq, Repr

/-- Serialized credential-proposal snapshot (`CredentialProposal`), as
built in `_create_free_offer` and `credential_exchange_send`. -/
structure CredentialProposal where
  comment : Option String
  credential_proposal : Option CredentialPreview
  cred_def_id : Option String
  deriving DecidableEq, Repr

/-- A credential exchange record (`V10CredentialExchange` /
`V20CredExRecord`), restricted to the fields the modelled code reads or
writes. -/
structure Record where
  connection_id : Option String
  initiator : Initiator
  role : Role
  state : Option XState
  credential_definition_id : Option String
  credential_proposal_dict : Option CredentialProposal
  credential_offer_dict : Option Unit
  auto_offer : Option Bool
  auto_issue : Option Bool
  auto_remove : Option Bool
  trace : Option Bool
  error_msg : Option String
  deriving DecidableEq, Repr

/-- Python truthiness of an optional boolean field. -/
def truthy : Option Bool → Bool
  | some true => true
  | _ => false

/-- Outbound protocol messages; the payload tags a concrete message so a
dispatched message can be traced to the manager call that produced it. -/
inductive Msg
  | offer (n : Nat)
  | request (n : Nat)
  | credential (n : Nat)
  | ack (n : Nat)
  | proposal (n : Nat)
  | problemReport (n : Nat)
  deriving DecidableEq, Repr

/-- Observable effects of one handler / route invocation, in order. -/
inductive Event
  | mgrReceiveProposal
  | mgrPrepareSend
  | mgrCreateProposal
  | mgrCreateOffer (counter : Option CredentialProposal)
  | mgrCreateRequest
  | mgrIssue
  | mgrStore (credential_id : Option String)
  | mgrSendAck
  | mgrProblemReport (description : String)
  | saveErrorState (reason : String)
  | outbound (m : Msg)
  | problemReportSent
  | logged
  | deleteRecord
  deriving DecidableEq, Repr

/-- Whether an event is an invocation of a Manager operation. -/
def Event.isMgrCall : Event → Bool
  | .mgrReceiveProposal => true
  | .mgrPrepareSend => true
  | .mgrCreateProposal => true
  | .mgrCreateOffer _ => true
  | .mgrCreateRequest => true
  | .mgrIssue => true
  | .mgrStore _ => true
  | .mgrSendAck => true
  | .mgrProblemReport _ => true
  | _ => false

/-- Whether an event writes error state onto the exchange record. -/
def Event.isSaveErrorState : Event → Bool
  | .saveErrorState _ => true
  | _ => false

/-- Whether an event dispatches an outbound protocol message built by a
creation operation (problem reports sent by the error path are separate). -/
def Event.isOutbound : Event → Bool
  | .outbound _ => true
  | _ => false

/-- How an operation terminated abnormally: the exception that escapes to
the operation's caller. -/
inductive Failure
  | handlerException
  | forbidden
  | notFound (k : Option ErrKind)
  | badRequest (k : Option ErrKind)
  | uncaught (k : ErrKind)
  | secondaryCrash (k : ErrKind)
  deriving DecidableEq, Repr

/-- Result of one handler / route invocation. -/
inductive RResult
  | ok
  | fail (f : Failure)
  deriving DecidableEq, Repr

/-- Full outcome of one modelled invocation: result, effect trace, and the
record as last persisted (`none` when no record was obtained). -/
structure RouteOut where
  result : RResult
  events : List Event
  stored : Option Record
  deriving DecidableEq, Repr

/-- Modelled from the spec: `save_error_state` on an exchange record is
defined on the record model, which is outside these sources; per the §4.1
operation table it sets `error_msg` and leaves the record's state
unchanged. -/
def Record.save_error_state (rec : Record) (reason : String) : Record :=
  { rec with error_msg := some reason }

/-- Modelled from the spec: the error/problem-report path `internal_error`
(defined in the problem-report module, outside these sources) sends an
outbound problem-report message when a target record is available and then
raises the given HTTP error class wrapping the original failure, surfacing
it to the caller. -/
def internal_error (k : ErrKind) (asNotFound : Bool) (hasTarget : Bool) :
    Failure × List Event :=
  (if asNotFound then .notFound (some k) else .badRequest (some k),
   if hasTarget then [.problemReportSent] else [])

/-- Modelled from the spec: the Manager's `create_offer` operation (the
Manager class is outside these sources). Per §4.1 it requires state
PROPOSAL_RECEIVED or a fresh free-offer record with no state, may accept a
counter-proposal overriding the stored proposal, transitions the record to
OFFER_SENT populating the offer snapshot, and otherwise fails with a
state conflict leaving the record alone. -/
def managerCreateOffer (rec : Record) (counter : Option CredentialProposal) :
    Except ErrKind (Record × Msg) :=
  if rec.state = some .proposalReceived ∨ rec.state = none then
    .ok ({ rec with
            state := some .offerSent
            credential_offer_dict := some ()
            credential_proposal_dict :=
              match counter with
              | some cp => some cp
              | none => rec.credential_proposal_dict },
         .offer 0)
  else .error .credManagerError

/-! ## V20CredProposalHandler.handle -/

/-- Environment for one run of `V20CredProposalHandler.handle`: the
connection-readiness flag and the outcomes of the calls the handler makes
into its collaborators. -/
structure HandlerEnv where
  connection_ready : Bool
  receive_proposal : Except ErrKind Record
  create_offer : Except ErrKind (Record × Msg)
  send_reply : Except ErrKind Unit
  save_error_state : Except ErrKind Unit
  deriving Repr

/-- The handler's `except` processing around automatic offer creation
(`cred_proposal_handler.py` lines 61-69): manager / issuer / ledger errors
are logged and, the record existing, error state is saved on it; a storage
error is logged only; anything else propagates. -/
def handlerContinuationCatch (env : HandlerEnv) (rec : Record) (k : ErrKind)
    (evs : List Event) : RouteOut :=
  if caughtBy [.credManagerError, .indyIssuerError, .ledgerError] k then
    match env.save_error_state with
    | .ok _ =>
      ⟨.ok, evs ++ [.logged, .saveErrorState k.message],
        some (rec.save_error_state k.message)⟩
    | .error k2 =>
      ⟨.fail (.uncaught k2), evs ++ [.logged, .saveErrorState k.message],
        some rec⟩
  else if caughtBy [.storageError] k then
    ⟨.ok, evs ++ [.logged], some rec⟩
  else
    ⟨.fail (.uncaught k), evs, some rec⟩

/-- Model of `V20CredProposalHandler.handle`: connection-readiness check,
`receive_proposal`, then — when the record's `auto_offer` flag is truthy —
automatic `create_offer` and reply dispatch with the error handling of
`handlerContinuationCatch`. -/
def handle (env : HandlerEnv) : RouteOut :=
  if env.connection_ready then
    match env.receive_proposal with
    | .error k => ⟨.fail (.uncaught k), [.mgrReceiveProposal], none⟩
    | .ok rec =>
      if truthy rec.auto_offer then
        match env.create_offer with
        | .ok (rec2, msg) =>
          match env.send_reply with
          | .ok _ =>
            ⟨.ok, [.mgrReceiveProposal, .mgrCreateOffer none, .outbound msg],
              some rec2⟩
          | .error k =>
            handlerContinuationCatch env rec2 k
              [.mgrReceiveProposal, .mgrCreateOffer none, .outbound msg]
        | .error k =>
          handlerContinuationCatch env rec k
            [.mgrReceiveProposal, .mgrCreateOffer none]
      else ⟨.ok, [.mgrReceiveProposal], some rec⟩
  else ⟨.fail .handlerException, [], none⟩

/-! ## credential_exchange_send -/

/-- Exception classes in `credential_exchange_send`'s `except` clause. -/
def sendClauses : List ErrKind :=
  [.storageError, .baseModelError, .credManagerError]

/-- Environment for one run of `credential_exchange_send`: request-body
presence of the proposal preview and outcomes of the deserialization,
connection retrieval, readiness check, and `prepare_send` manager call. -/
structure SendEnv where
  has_preview : Bool
  preview_deser : Except ErrKind Unit
  conn_retrieve : Except ErrKind Unit
  is_ready : Bool
  prepare_send : Except ErrKind (Record × Msg)
  deriving Repr

/-- Model of `credential_exchange_send` (routes.py lines 444-530): missing
preview is rejected directly; storage / model / manager errors go through
`internal_error` (with the connection as target only once it has been
retrieved); an unready connection raises Forbidden, which the `except`
clause does not catch; on success the offer message is dispatched. -/
def credential_exchange_send (env : SendEnv) : RouteOut :=
  if env.has_preview then
    match env.preview_deser with
    | .error k =>
      if caughtBy sendClauses k then
        ⟨.fail (internal_error k false false).1, (internal_error k false false).2,
          none⟩
      else ⟨.fail (.uncaught k), [], none⟩
    | .ok _ =>
      match env.conn_retrieve with
      | .error k =>
        if caughtBy sendClauses k then
          ⟨.fail (internal_error k false false).1,
            (internal_error k false false).2, none⟩
        else ⟨.fail (.uncaught k), [], none⟩
      | .ok _ =>
        if env.is_ready then
          match env.prepare_send with
          | .error k =>
            if caughtBy sendClauses k then
              ⟨.fail (internal_error k false true).1,
                .mgrPrepareSend :: (internal_error k false true).2, none⟩
            else ⟨.fail (.uncaught k), [.mgrPrepareSend], none⟩
          | .ok (rec, msg) => ⟨.ok, [.mgrPrepareSend, .outbound msg], some rec⟩
        else ⟨.fail .forbidden, [], none⟩
  else ⟨.fail (.badRequest none), [], none⟩

/-! ## credential_exchange_send_proposal -/

/-- Exception classes in `credential_exchange_send_proposal`'s `except`
clause. -/
def sendProposalClauses : List ErrKind := [.baseModelError, .storageError]

/-- Environment for one run of `credential_exchange_send_proposal`. -/
structure SendProposalEnv where
  has_preview : Bool
  preview_deser : Except ErrKind Unit
  conn_retrieve : Except ErrKind Unit
  is_ready : Bool
  create_proposal : Except ErrKind Record
  proposal_reser : Except ErrKind Msg
  deriving Repr

/-- Model of `credential_exchange_send_proposal` (routes.py lines
539-607): optional preview deserialization, connection retrieval and
readiness check, the manager's `create_proposal`, re-deserialization of
the stored proposal snapshot into the outbound message, then dispatch. -/
def credential_exchange_send_proposal (env : SendProposalEnv) : RouteOut :=
  match (if env.has_preview then env.preview_deser else .ok ()) with
  | .error k =>
    if caughtBy sendProposalClauses k then
      ⟨.fail (internal_error k false false).1, (internal_error k false false).2,
        none⟩
    else ⟨.fail (.uncaught k), [], none⟩
  | .ok _ =>
    match env.conn_retrieve with
    | .error k =>
      if caughtBy sendProposalClauses k then
        ⟨.fail (internal_error k false false).1,
          (internal_error k false false).2, none⟩
      else ⟨.fail (.uncaught k), [], none⟩
    | .ok _ =>
      if env.is_ready then
        match env.create_proposal with
        | .error k =>
          if caughtBy sendProposalClauses k then
            ⟨.fail (internal_error k false true).1,
              .mgrCreateProposal :: (internal_error k false true).2, none⟩
          else ⟨.fail (.uncaught k), [.mgrCreateProposal], none⟩
        | .ok rec =>
          match env.proposal_reser with
          | .error k =>
            if caughtBy sendProposalClauses k then
              ⟨.fail (internal_error k false true).1,
                .mgrCreateProposal :: (internal_error k false true).2, some rec⟩
            else ⟨.fail (.uncaught k), [.mgrCreateProposal], some rec⟩
          | .ok msg => ⟨.ok, [.mgrCreateProposal, .outbound msg], some rec⟩
      else ⟨.fail .forbidden, [], none⟩

/-! ## _create_free_offer and the free-offer routes -/

/-- Parameters of `_create_free_offer` (routes.py lines 610-619). -/
structure FreeOfferParams where
  cred_def_id : String
  connection_id : Option String
  auto_issue : Option Bool
  auto_remove : Option Bool
  preview_spec : Option CredentialPreview
  comment : Option String
  trace_msg : Option Bool
  deriving DecidableEq, Repr

/-- Model of `_create_free_offer` (routes.py lines 610-653): deserializes
the preview, synthesizes a `CredentialProposal` from it, builds a fresh
exchange record with initiator SELF, role ISSUER and the serialized
proposal as its proposal snapshot, and runs the manager's `create_offer`
on it. `preview_deser_ok` is the preview deserialization outcome;
`offer_failure`, when set, is a collaborator (issuer / ledger / storage)
failure raised inside the manager's `create_offer`. -/
def _create_free_offer (p : FreeOfferParams) (preview_deser_ok : Bool)
    (offer_failure : Option ErrKind) : Except ErrKind (Record × Msg) :=
  if preview_deser_ok then
    match offer_failure with
    | some k => .error k
    | none =>
      managerCreateOffer
        { connection_id := p.connection_id
          initiator := .self
          role := .issuer
          state := none
          credential_definition_id := some p.cred_def_id
          credential_proposal_dict := some
            { comment := p.comment
              credential_proposal := p.preview_spec
              cred_def_id := some p.cred_def_id }
          credential_offer_dict := none
          auto_offer := none
          auto_issue := p.auto_issue
          auto_remove := p.auto_remove
          trace := p.trace_msg
          error_msg := none } none
  else .error .baseModelError

/-- The request body of the free-offer routes. `auto_issue_present` is
whether the `auto_issue` key occurs in the body at all;
`auto_issue_value` is its value when present (`none` models JSON null). -/
structure FreeOfferBody where
  connection_id : Option String
  cred_def_id : Option String
  auto_issue_present : Bool
  auto_issue_value : Option Bool
  auto_remove : Option Bool
  comment : Option String
  preview_spec : Option CredentialPreview
  trace : Option Bool
  deriving DecidableEq, Repr

/-- The effective `auto_issue` flag of a free-offer request:
`body.get("auto_issue", settings.get("debug.auto_respond_credential_request"))`. -/
def resolveAutoIssue (body : FreeOfferBody) (setting : Option Bool) :
    Option Bool :=
  if body.auto_issue_present then body.auto_issue_value else setting

/-- Exception classes in `credential_exchange_create_free_offer`'s outer
`except` clause. -/
def createFreeOfferClauses : List ErrKind :=
  [.baseModelError, .credManagerError, .indyIssuerError, .ledgerError,
   .storageError]

/-- Environment for one run of `credential_exchange_create_free_offer`. -/
structure CreateFreeOfferEnv where
  body : FreeOfferBody
  auto_respond_setting : Option Bool
  conn_retrieve : Except ErrKind Unit
  has_public_did : Bool
  has_endpoint : Bool
  preview_deser_ok : Bool
  offer_failure : Option ErrKind
  deriving Repr

/-- Model of `credential_exchange_create_free_offer` (routes.py lines
662-762): validates `cred_def_id` and preview presence, resolves the DID
(via the given connection when one is named, else the public DID) and its
endpoint, then runs `_create_free_offer`; offer-creation failures go
through `internal_error`, except that when no connection was named the
`except` block crashes referencing the never-bound connection record. -/
def credential_exchange_create_free_offer (env : CreateFreeOfferEnv) :
    RouteOut :=
  match env.body.cred_def_id with
  | none => ⟨.fail (.badRequest none), [], none⟩
  | some cred_def_id =>
    match env.body.preview_spec with
    | none => ⟨.fail (.badRequest none), [], none⟩
    | some preview =>
      match (match env.body.connection_id with
             | some _ => env.conn_retrieve
             | none => if env.has_public_did then .ok () else
                 .error .walletError) with
      | .error k =>
        match env.body.connection_id with
        | some _ => ⟨.fail (.badRequest (some k)), [], none⟩
        | none => ⟨.fail (.badRequest none), [], none⟩
      | .ok _ =>
        if env.has_endpoint then
          match _create_free_offer
              { cred_def_id := cred_def_id
                connection_id := env.body.connection_id
                auto_issue := resolveAutoIssue env.body env.auto_respond_setting
                auto_remove := env.body.auto_remove
                preview_spec := some preview
                comment := env.body.comment
                trace_msg := env.body.trace }
              env.preview_deser_ok env.offer_failure with
          | .error k =>
            if caughtBy createFreeOfferClauses k then
              match env.body.connection_id with
              | some _ =>
                ⟨.fail (internal_error k false true).1,
                  .mgrCreateOffer none :: (internal_error k false true).2, none⟩
              | none => ⟨.fail (.secondaryCrash k), [.mgrCreateOffer none], none⟩
            else ⟨.fail (.uncaught k), [.mgrCreateOffer none], none⟩
          | .ok (rec, _msg) => ⟨.ok, [.mgrCreateOffer none], some rec⟩
        else ⟨.fail (.badRequest none), [], none⟩

/-- Exception classes in `credential_exchange_send_free_offer`'s `except`
clause (plain `StorageError` and `IndyIssuerError` are absent from it). -/
def sendFreeOfferClauses : List ErrKind :=
  [.storageNotFoundError, .baseModelError, .credManagerError, .ledgerError]

/-- Environment for one run of `credential_exchange_send_free_offer`. -/
structure SendFreeOfferEnv where
  body : FreeOfferBody
  auto_respond_setting : Option Bool
  conn_retrieve : Except ErrKind Unit
  is_ready : Bool
  preview_deser_ok : Bool
  offer_failure : Option ErrKind
  deriving Repr

/-- Model of `credential_exchange_send_free_offer` (routes.py lines
771-850): validates `cred_def_id` and preview presence, retrieves the
connection and checks readiness, runs `_create_free_offer`, and
dispatches the offer message. -/
def credential_exchange_send_free_offer (env : SendFreeOfferEnv) : RouteOut :=
  match env.body.cred_def_id with
  | none => ⟨.fail (.badRequest none), [], none⟩
  | some cred_def_id =>
    match env.body.preview_spec with
    | none => ⟨.fail (.badRequest none), [], none⟩
    | some preview =>
      match env.conn_retrieve with
      | .error k =>
        if caughtBy sendFreeOfferClauses k then
          ⟨.fail (internal_error k false false).1,
            (internal_error k false false).2, none⟩
        else ⟨.fail (.uncaught k), [], none⟩
      | .ok _ =>
        if env.is_ready then
          match _create_free_offer
              { cred_def_id := cred_def_id
                connection_id := env.body.connection_id
                auto_issue := resolveAutoIssue env.body env.auto_respond_setting
                auto_remove := env.body.auto_remove
                preview_spec := some preview
                comment := env.body.comment
                trace_msg := env.body.trace }
              env.preview_deser_ok env.offer_failure with
          | .error k =>
            if caughtBy sendFreeOfferClauses k then
              ⟨.fail (internal_error k false true).1,
                .mgrCreateOffer none :: (internal_error k false true).2, none⟩
            else ⟨.fail (.uncaught k), [.mgrCreateOffer none], none⟩
          | .ok (rec, msg) =>
            ⟨.ok, [.mgrCreateOffer none, .outbound msg], some rec⟩
        else ⟨.fail .forbidden, [], none⟩

/-! ## credential_exchange_send_bound_offer -/

/-- The request body of the bound-offer route: absent, syntactically
invalid JSON, or an object with an optional counter-proposal. -/
inductive BoundOfferBody
  | absent
  | invalid
  | obj (counter : Option CredentialProposal)
  deriving DecidableEq, Repr

/-- The counter-proposal the body carries (`body.get("counter_proposal")`
with an absent body read as the empty object). -/
def boundOfferCounter : BoundOfferBody → Option CredentialProposal
  | .obj cp => cp
  | .absent => none
  | .invalid => none

/-- Exception classes in `credential_exchange_send_bound_offer`'s outer
`except` clause. -/
def boundOfferClauses : List ErrKind :=
  [.baseModelError, .credManagerError, .indyIssuerError, .ledgerError,
   .storageError]

/-- Environment for one run of `credential_exchange_send_bound_offer`. -/
structure BoundOfferEnv where
  body : BoundOfferBody
  counter_deser_ok : Bool
  retrieve : Except ErrKind Record
  conn_retrieve : Except ErrKind Unit
  is_ready : Bool
  create_offer : Except ErrKind (Record × Msg)
  save_error_state_ok : Bool
  deriving Repr

/-- The bound-offer route's `except` block with a retrieved record in
scope (routes.py lines 922-936): save error state on the record, then
surface through `internal_error`; a storage failure inside
`save_error_state` itself propagates instead. -/
def boundOfferCatch (saveOk : Bool) (rec : Record) (k : ErrKind)
    (evs : List Event) : RouteOut :=
  if saveOk then
    ⟨.fail (internal_error k false true).1,
      evs ++ [.saveErrorState k.message] ++ (internal_error k false true).2,
      some (rec.save_error_state k.message)⟩
  else
    ⟨.fail (.uncaught .storageError), evs ++ [.saveErrorState k.message],
      some rec⟩

/-- Reading the bound-offer request body (routes.py lines 879-880): an
absent body is replaced by the empty object, invalid JSON raises
`JSONDecodeError` uncaught, otherwise the optional counter-proposal is
extracted. -/
def boundOfferParse : BoundOfferBody →
    Except Failure (Option CredentialProposal)
  | .invalid => .error (.uncaught .jsonDecodeError)
  | .absent => .ok none
  | .obj cp => .ok cp

/-- The bound-offer route after body parsing: retrieves the record,
rejects any state other than PROPOSAL_RECEIVED with a manager
state-conflict error before calling the manager, retrieves the connection
and checks readiness, then runs the manager's `create_offer` and
dispatches the offer. A retrieval failure other than not-found leaves no
record for the `except` block, which then crashes on `None`. -/
def boundOfferRun (retrieve : Except ErrKind Record)
    (conn_retrieve : Except ErrKind Unit) (is_ready : Bool)
    (counter_deser_ok : Bool) (create_offer : Except ErrKind (Record × Msg))
    (saveOk : Bool) (counter : Option CredentialProposal) : RouteOut :=
  match retrieve with
  | .error k =>
    if k = .storageNotFoundError then ⟨.fail (.notFound (some k)), [], none⟩
    else if caughtBy boundOfferClauses k then
      ⟨.fail (.secondaryCrash k), [], none⟩
    else ⟨.fail (.uncaught k), [], none⟩
  | .ok rec =>
    if rec.state = some .proposalReceived then
      match conn_retrieve with
      | .error k =>
        if caughtBy boundOfferClauses k then boundOfferCatch saveOk rec k []
        else ⟨.fail (.uncaught k), [], some rec⟩
      | .ok _ =>
        if is_ready then
          if counter.isSome && !counter_deser_ok then
            boundOfferCatch saveOk rec .baseModelError []
          else
            match create_offer with
            | .error k =>
              if caughtBy boundOfferClauses k then
                boundOfferCatch saveOk rec k [.mgrCreateOffer counter]
              else
                ⟨.fail (.uncaught k), [.mgrCreateOffer counter], some rec⟩
            | .ok (rec2, msg) =>
              ⟨.ok, [.mgrCreateOffer counter, .outbound msg], some rec2⟩
        else ⟨.fail .forbidden, [], some rec⟩
    else boundOfferCatch saveOk rec .credManagerError []

/-- Model of `credential_exchange_send_bound_offer` (routes.py lines
860-947): body parsing followed by `boundOfferRun`. -/
def credential_exchange_send_bound_offer (env : BoundOfferEnv) : RouteOut :=
  match boundOfferParse env.body with
  | .error f => ⟨.fail f, [], none⟩
  | .ok counter =>
    boundOfferRun env.retrieve env.conn_retrieve env.is_ready
      env.counter_deser_ok env.create_offer env.save_error_state_ok counter

/-! ## credential_exchange_send_request -/

/-- Exception classes in `credential_exchange_send_request`'s outer
`except` clause. -/
def sendRequestClauses : List ErrKind :=
  [.baseModelError, .credManagerError, .indyHolderError, .ledgerError,
   .storageError]

/-- Environment for one run of `credential_exchange_send_request`. -/
structure SendRequestEnv where
  retrieve : Except ErrKind Record
  conn_retrieve : Except ErrKind Unit
  is_ready : Bool
  create_request : Except ErrKind (Record × Msg)
  save_error_state_ok : Bool
  deriving Repr

/-- The send-request route's `except` block with a retrieved record in
scope (routes.py lines 1003-1017): save error state, then surface through
`internal_error`. -/
def sendRequestCatch (env : SendRequestEnv) (rec : Record) (k : ErrKind)
    (evs : List Event) : RouteOut :=
  if env.save_error_state_ok then
    ⟨.fail (internal_error k false true).1,
      evs ++ [.saveErrorState k.message] ++ (internal_error k false true).2,
      some (rec.save_error_state k.message)⟩
  else
    ⟨.fail (.uncaught .storageError), evs ++ [.saveErrorState k.message],
      some rec⟩

/-- Model of `credential_exchange_send_request` (routes.py lines
956-1028): retrieves the record (not-found surfaces directly as 404),
retrieves the connection and checks readiness, runs the manager's
`create_request`, and dispatches the request message. -/
def credential_exchange_send_request (env : SendRequestEnv) : RouteOut :=
  match env.retrieve with
  | .error k =>
    if k = .storageNotFoundError then ⟨.fail (.notFound (some k)), [], none⟩
    else if caughtBy sendRequestClauses k then
      ⟨.fail (.secondaryCrash k), [], none⟩
    else ⟨.fail (.uncaught k), [], none⟩
  | .ok rec =>
    match env.conn_retrieve with
    | .error k =>
      if caughtBy sendRequestClauses k then sendRequestCatch env rec k []
      else ⟨.fail (.uncaught k), [], some rec⟩
    | .ok _ =>
      if env.is_ready then
        match env.create_request with
        | .error k =>
          if caughtBy sendRequestClauses k then
            sendRequestCatch env rec k [.mgrCreateRequest]
          else ⟨.fail (.uncaught k), [.mgrCreateRequest], some rec⟩
        | .ok (rec2, msg) =>
          ⟨.ok, [.mgrCreateRequest, .outbound msg], some rec2⟩
      else ⟨.fail .forbidden, [], some rec⟩

/-! ## credential_exchange_issue -/

/-- A JSON request body that is read unguarded: either invalid JSON or an
object carrying one optional string field. -/
inductive SimpleBody
  | invalid
  | obj (value : Option String)
  deriving DecidableEq, Repr

/-- Exception classes in `credential_exchange_issue`'s outer `except`
clause. -/
def issueClauses : List ErrKind :=
  [.baseModelError, .credManagerError, .indyIssuerError, .ledgerError,
   .storageError]

/-- Environment for one run of `credential_exchange_issue`. -/
structure IssueEnv where
  body : SimpleBody
  retrieve : Except ErrKind Record
  conn_retrieve : Except ErrKind Unit
  is_ready : Bool
  issue_credential : Except ErrKind (Record × Msg)
  save_error_state_ok : Bool
  deriving Repr

/-- The issue route's `except` block with a retrieved record in scope
(routes.py lines 1083-1097): save error state, then surface through
`internal_error`. -/
def issueCatch (env : IssueEnv) (rec : Record) (k : ErrKind)
    (evs : List Event) : RouteOut :=
  if env.save_error_state_ok then
    ⟨.fail (internal_error k false true).1,
      evs ++ [.saveErrorState k.message] ++ (internal_error k false true).2,
      some (rec.save_error_state k.message)⟩
  else
    ⟨.fail (.uncaught .storageError), evs ++ [.saveErrorState k.message],
      some rec⟩

/-- Model of `credential_exchange_issue` (routes.py lines 1038-1108): the
body is read unguarded, then the record is retrieved, the connection
checked for readiness, the manager's `issue_credential` run and the
resulting message dispatched. -/
def credential_exchange_issue (env : IssueEnv) : RouteOut :=
  match env.body with
  | .invalid => ⟨.fail (.uncaught .jsonDecodeError), [], none⟩
  | .obj _ =>
    match env.retrieve with
    | .error k =>
      if k = .storageNotFoundError then ⟨.fail (.notFound (some k)), [], none⟩
      else if caughtBy issueClauses k then ⟨.fail (.secondaryCrash k), [], none⟩
      else ⟨.fail (.uncaught k), [], none⟩
    | .ok rec =>
      match env.conn_retrieve with
      | .error k =>
        if caughtBy issueClauses k then issueCatch env rec k []
        else ⟨.fail (.uncaught k), [], some rec⟩
      | .ok _ =>
        if env.is_ready then
          match env.issue_credential with
          | .error k =>
            if caughtBy issueClauses k then issueCatch env rec k [.mgrIssue]
            else ⟨.fail (.uncaught k), [.mgrIssue], some rec⟩
          | .ok (rec2, msg) => ⟨.ok, [.mgrIssue, .outbound msg], some rec2⟩
        else ⟨.fail .forbidden, [], some rec⟩

/-! ## credential_exchange_store -/

/-- The request body of the store route: absent, syntactically invalid
JSON, the JSON literal null, or an object with an optional
`credential_id`. -/
inductive StoreBody
  | absent
  | invalid
  | nullJson
  | obj (credential_id : Option String)
  deriving DecidableEq, Repr

/-- The `credential_id` the store route extracts from its body
(routes.py lines 1134-1138): an absent or invalid body raises
`JSONDecodeError`, which is caught and leaves `credential_id = None`; a
null body is replaced by the empty object. -/
def storeCredentialId : StoreBody → Option String
  | .obj cid => cid
  | _ => none

/-- Exception classes in `credential_exchange_store`'s outer `except`
clause. -/
def storeClauses : List ErrKind :=
  [.baseModelError, .credManagerError, .indyHolderError, .storageError]

/-- Environment for one run of `credential_exchange_store`. -/
structure StoreEnv where
  body : StoreBody
  retrieve : Except ErrKind Record
  conn_retrieve : Except ErrKind Unit
  is_ready : Bool
  store_credential : Except ErrKind Record
  send_ack : Except ErrKind (Record × Msg)
  deriving Repr

/-- The store route after body parsing: the record is retrieved
(not-found surfaces directly as 404), the connection checked for
readiness, the manager's `store_credential` then `send_credential_ack`
run; the `except` block deliberately surfaces failures through
`internal_error` without saving error state. -/
def storeRun (retrieve : Except ErrKind Record)
    (conn_retrieve : Except ErrKind Unit) (is_ready : Bool)
    (store_credential : Except ErrKind Record)
    (send_ack : Except ErrKind (Record × Msg))
    (credential_id : Option String) : RouteOut :=
  match retrieve with
  | .error k =>
    if k = .storageNotFoundError then ⟨.fail (.notFound (some k)), [], none⟩
    else if caughtBy storeClauses k then
      ⟨.fail (internal_error k false false).1, (internal_error k false false).2,
        none⟩
    else ⟨.fail (.uncaught k), [], none⟩
  | .ok rec =>
    match conn_retrieve with
    | .error k =>
      if caughtBy storeClauses k then
        ⟨.fail (internal_error k false true).1, (internal_error k false true).2,
          some rec⟩
      else ⟨.fail (.uncaught k), [], some rec⟩
    | .ok _ =>
      if is_ready then
        match store_credential with
        | .error k =>
          if caughtBy storeClauses k then
            ⟨.fail (internal_error k false true).1,
              .mgrStore credential_id :: (internal_error k false true).2,
              some rec⟩
          else ⟨.fail (.uncaught k), [.mgrStore credential_id], some rec⟩
        | .ok rec2 =>
          match send_ack with
          | .error k =>
            if caughtBy storeClauses k then
              ⟨.fail (internal_error k false true).1,
                [.mgrStore credential_id, .mgrSendAck]
                  ++ (internal_error k false true).2, some rec2⟩
            else
              ⟨.fail (.uncaught k), [.mgrStore credential_id, .mgrSendAck],
                some rec2⟩
          | .ok (rec3, _ack) =>
            ⟨.ok, [.mgrStore credential_id, .mgrSendAck], some rec3⟩
      else ⟨.fail .forbidden, [], some rec⟩

/-- Model of `credential_exchange_store` (routes.py lines 1118-1191):
body parsing (which never fails) followed by `storeRun`. -/
def credential_exchange_store (env : StoreEnv) : RouteOut :=
  storeRun env.retrieve env.conn_retrieve env.is_ready env.store_credential
    env.send_ack (storeCredentialId env.body)

/-! ## credential_exchange_problem_report -/

/-- Environment for one run of `credential_exchange_problem_report`. The
`is_ready` flag of the record's connection is part of the environment but
never consulted by the route. -/
structure ProblemReportEnv where
  body : SimpleBody
  is_ready : Bool
  retrieve : Except ErrKind Record
  create_problem_report : Except ErrKind Msg
  deriving Repr

/-- Model of `credential_exchange_problem_report` (routes.py lines
1201-1233): the body is read unguarded, the record retrieved (not-found
goes through `internal_error` with no target; another storage failure
makes the `except` block crash on the never-bound record variable), the
manager's `create_problem_report` run on `body["description"]`, and the
report dispatched over the record's connection. No connection-readiness
check and no error-state write occur anywhere. -/
def credential_exchange_problem_report (env : ProblemReportEnv) : RouteOut :=
  match env.body with
  | .invalid => ⟨.fail (.uncaught .jsonDecodeError), [], none⟩
  | .obj description =>
    match env.retrieve with
    | .error k =>
      if k = .storageNotFoundError then
        ⟨.fail (internal_error k true false).1, (internal_error k true false).2,
          none⟩
      else if caughtBy [.storageError] k then
        ⟨.fail (.secondaryCrash k), [], none⟩
      else ⟨.fail (.uncaught k), [], none⟩
    | .ok rec =>
      match description with
      | none => ⟨.fail (.uncaught .keyError), [], some rec⟩
      | some d =>
        match env.create_problem_report with
        | .error k =>
          if k = .storageNotFoundError then
            ⟨.fail (internal_error k true false).1,
              .mgrProblemReport d :: (internal_error k true false).2, some rec⟩
          else if caughtBy [.storageError] k then
            ⟨.fail (internal_error k false true).1,
              .mgrProblemReport d :: (internal_error k false true).2, some rec⟩
          else ⟨.fail (.uncaught k), [.mgrProblemReport d], some rec⟩
        | .ok msg =>
          ⟨.ok, [.mgrProblemReport d, .outbound msg], some rec⟩

/-! ## credential_exchange_remove -/

/-- Environment for one run of `credential_exchange_remove`. -/
structure RemoveEnv where
  retrieve : Except ErrKind Record
  delete_record : Except ErrKind Unit
  deriving Repr

/-- Model of `credential_exchange_remove` (routes.py lines 1242-1266):
retrieves the record and deletes it; storage failures go through
`internal_error` (as 404 for not-found, else 400), with the record as
target once retrieved. No error-state write occurs. -/
def credential_exchange_remove (env : RemoveEnv) : RouteOut :=
  match env.retrieve with
  | .error k =>
    if k = .storageNotFoundError then
      ⟨.fail (internal_error k true false).1, (internal_error k true false).2,
        none⟩
    else if caughtBy [.storageError] k then
      ⟨.fail (internal_error k false false).1, (internal_error k false false).2,
        none⟩
    else ⟨.fail (.uncaught k), [], none⟩
  | .ok rec =>
    match env.delete_record with
    | .error k =>
      if k = .storageNotFoundError then
        ⟨.fail (internal_error k true true).1, (internal_error k true true).2,
          some rec⟩
      else if caughtBy [.storageError] k then
        ⟨.fail (internal_error k false true).1, (internal_error k false true).2,
          some rec⟩
      else ⟨.fail (.uncaught k), [], some rec⟩
    | .ok _ => ⟨.ok, [.deleteRecord], none⟩

/-! ## Concrete data for closed evaluations -/

/-- A concrete exchange record in state PROPOSAL_RECEIVED with
`auto_offer` enabled. -/
def sampleRecord : Record :=
  { connection_id := some "conn-1"
    initiator := .remote
    role := .issuer
    state := some .proposalReceived
    credential_definition_id := some "CD"
    credential_proposal_dict := some
      { comment := none
        credential_proposal := some ⟨[("legalName", "Acme")]⟩
        cred_def_id := some "CD" }
    credential_offer_dict := none
    auto_offer := some true
    auto_issue := none
    auto_remove := some false
    trace := some false
    error_msg := none }

/-- The record `sampleRecord` becomes after a successful `create_offer`
with no counter-proposal. -/
def offeredRecord : Record :=
  { sampleRecord with
      state := some .offerSent
      credential_offer_dict := some () }

/-- Concrete free-offer parameters with no connection bound. -/
def freeOfferParamsSample : FreeOfferParams :=
  { cred_def_id := "CD"
    connection_id := none
    auto_issue := some true
    auto_remove := some false
    preview_spec := some ⟨[("legalName", "Acme")]⟩
    comment := some "free offer"
    trace_msg := some false }

/-- The record the sample free-offer creation produces. -/
def freeOfferSampleRecord : Record :=
  { connection_id := none
    initiator := .self
    role := .issuer
    state := some .offerSent
    credential_definition_id := some "CD"
    credential_proposal_dict := some
      { comment := some "free offer"
        credential_proposal := some ⟨[("legalName", "Acme")]⟩
        cred_def_id := some "CD" }
    credential_offer_dict := some ()
    auto_offer := none
    auto_issue := some true
    auto_remove := some false
    trace := some false
    error_msg := none }

/-- A free-offer request body with an explicit `auto_issue` value and no
connection. -/
def freeOfferBodySample : FreeOfferBody :=
  { connection_id := none
    cred_def_id := some "CD"
    auto_issue_present := true
    auto_issue_value := some true
    auto_remove := some false
    comment := some "free offer"
    preview_spec := some ⟨[("legalName", "Acme")]⟩
    trace := some false }

/-- A concrete environment for the create-free-offer route. -/
def createFreeOfferEnvSample : CreateFreeOfferEnv :=
  { body := freeOfferBodySample
    auto_respond_setting := some false
    conn_retrieve := .ok ()
    has_public_did := true
    has_endpoint := true
    preview_deser_ok := true
    offer_failure := none }

/-- A free-offer request body carrying no `auto_issue` key, bound to a
connection. -/
def sendFreeOfferBodySample : FreeOfferBody :=
  { connection_id := some "conn-1"
    cred_def_id := some "CD"
    auto_issue_present := false
    auto_issue_value := none
    auto_remove := some false
    comment := some "free offer"
    preview_spec := some ⟨[("legalName", "Acme")]⟩
    trace := some false }

/-- A concrete environment for the send-free-offer route. -/
def sendFreeOfferEnvSample : SendFreeOfferEnv :=
  { body := sendFreeOfferBodySample
    auto_respond_setting := some false
    conn_retrieve := .ok ()
    is_ready := true
    preview_deser_ok := true
    offer_failure := none }

/-- The record the send-free-offer sample produces: `auto_issue` falls
back to the process-wide setting. -/
def sendFreeOfferSampleRecord : Record :=
  { freeOfferSampleRecord with
      connection_id := some "conn-1"
      auto_issue := some false }

/-- The proposal snapshot carried by the record a free-offer creation
produces (`none` when creation fails, `some` of the record's
`credential_proposal_dict` field otherwise). -/
def freeOfferProposalDict (p : FreeOfferParams) (d : Bool)
    (f : Option ErrKind) : Option (Option CredentialProposal) :=
  match _create_free_offer p d f with
  | .ok (rec, _) => some rec.credential_proposal_dict
  | .error _ => none

/-- Handler environment whose automatic continuation succeeds. -/
def handlerAutoOfferEnv : HandlerEnv :=
  { connection_ready := true
    receive_proposal := .ok sampleRecord
    create_offer := .ok (offeredRecord, .offer 0)
    send_reply := .ok ()
    save_error_state := .ok () }

/-- Handler environment whose automatic continuation fails with a ledger
error. -/
def handlerManagerFailEnv : HandlerEnv :=
  { connection_ready := true
    receive_proposal := .ok sampleRecord
    create_offer := .error .ledgerError
    send_reply := .ok ()
    save_error_state := .ok () }

/-- Handler environment whose automatic continuation fails with a storage
error. -/
def handlerStorageSwallowEnv : HandlerEnv :=
  { connection_ready := true
    receive_proposal := .ok sampleRecord
    create_offer := .error .storageError
    send_reply := .ok ()
    save_error_state := .ok () }

/-- Handler environment whose `receive_proposal` fails with a storage
error. -/
def handlerReceiveFailEnv : HandlerEnv :=
  { handlerStorageSwallowEnv with receive_proposal := .error .storageError }

/-- Handler environment where saving error state after a manager failure
itself fails with a storage error. -/
def handlerSaveFailEnv : HandlerEnv :=
  { handlerStorageSwallowEnv with
      create_offer := .error .credManagerError
      save_error_state := .error .storageError }

/-- Environment for the send route whose `prepare_send` fails with a
storage error. -/
def sendStorageFailEnv : SendEnv :=
  { has_preview := true
    preview_deser := .ok ()
    conn_retrieve := .ok ()
    is_ready := true
    prepare_send := .error .storageError }

/-- Environment for the store route whose `store_credential` fails with a
storage error. -/
def storeStorageFailEnv : StoreEnv :=
  { body := .obj (some "cred-id")
    retrieve := .ok sampleRecord
    conn_retrieve := .ok ()
    is_ready := true
    store_credential := .error .storageError
    send_ack := .ok (sampleRecord, .ack 0) }

/-- Environment for the send route whose manager call fails with a
manager error. -/
def sendManagerFailEnv : SendEnv :=
  { has_preview := true
    preview_deser := .ok ()
    conn_retrieve := .ok ()
    is_ready := true
    prepare_send := .error .credManagerError }

/-- Environment for the bound-offer route whose manager call fails with a
ledger error. -/
def boundOfferMgrFailEnv : BoundOfferEnv :=
  { body := .obj none
    counter_deser_ok := true
    retrieve := .ok sampleRecord
    conn_retrieve := .ok ()
    is_ready := true
    create_offer := .error .ledgerError
    save_error_state_ok := true }

/-- Environment for the send-request route whose manager call fails. -/
def sendRequestFailEnv : SendRequestEnv :=
  { retrieve := .ok sampleRecord
    conn_retrieve := .ok ()
    is_ready := true
    create_request := .error .ledgerError
    save_error_state_ok := true }

/-- Environment for the issue route whose manager call fails. -/
def issueFailEnv : IssueEnv :=
  { body := .obj none
    retrieve := .ok sampleRecord
    conn_retrieve := .ok ()
    is_ready := true
    issue_credential := .error .indyIssuerError
    save_error_state_ok := true }

/-- Environment for the problem-report route that succeeds while its
connection is not ready. -/
def problemReportEnvSample : ProblemReportEnv :=
  { body := .obj (some "issuance abandoned")
    is_ready := false
    retrieve := .ok sampleRecord
    create_problem_report := .ok (.problemReport 0) }

/-- Environment for the remove route that succeeds. -/
def removeEnvSample : RemoveEnv :=
  { retrieve := .ok sampleRecord
    delete_record := .ok () }

/-- Environment for the first bound-offer call on a record in
PROPOSAL_RECEIVED, with the manager outcome given by the modelled
`create_offer` on that record. -/
def boundOfferEnvFirst : BoundOfferEnv :=
  { body := .obj none
    counter_deser_ok := true
    retrieve := .ok sampleRecord
    conn_retrieve := .ok ()
    is_ready := true
    create_offer := managerCreateOffer sampleRecord none
    save_error_state_ok := true }

/-- Environment for the second bound-offer call, on the record the first
call stored. -/
def boundOfferEnvSecond : BoundOfferEnv :=
  { boundOfferEnvFirst with
      retrieve := .ok offeredRecord
      create_offer := managerCreateOffer offeredRecord none }

/-- Handler environment with an unready connection. -/
def handlerNotReadyEnv : HandlerEnv :=
  { handlerAutoOfferEnv with connection_ready := false }

/-- Send-route environment with an unready connection. -/
def sendNotReadyEnv : SendEnv :=
  { sendManagerFailEnv with is_ready := false }

/-- Send-proposal environment with an unready connection. -/
def sendProposalNotReadyEnv : SendProposalEnv :=
  { has_preview := true
    preview_deser := .ok ()
    conn_retrieve := .ok ()
    is_ready := false
    create_proposal := .ok sampleRecord
    proposal_reser := .ok (.proposal 0) }

/-- Send-free-offer environment with an unready connection. -/
def sendFreeOfferNotReadyEnv : SendFreeOfferEnv :=
  { sendFreeOfferEnvSample with is_ready := false }

/-- Bound-offer environment with an unready connection. -/
def boundOfferNotReadyEnv : BoundOfferEnv :=
  { boundOfferEnvFirst with is_ready := false }

/-- Send-request environment with an unready connection. -/
def sendRequestNotReadyEnv : SendRequestEnv :=
  { sendRequestFailEnv with is_ready := false }

/-- Issue environment with an unready connection. -/
def issueNotReadyEnv : IssueEnv :=
  { issueFailEnv with is_ready := false }

/-- Store environment with an unready connection. -/
def storeNotReadyEnv : StoreEnv :=
  { storeStorageFailEnv with is_ready := false }

/-- The record and message a successful `_create_free_offer` produces,
spelled out field by field. -/
theorem free_offer_ok_fields (p : FreeOfferParams) (d : Bool)
    (f : Option ErrKind) (rec : Record) (msg : Msg)
    (h : _create_free_offer p d f = .ok (rec, msg)) :
    rec = { connection_id := p.connection_id
            initiator := .self
            role := .issuer
            state := some .offerSent
            credential_definition_id := some p.cred_def_id
            credential_proposal_dict := some
              { comment := p.comment
                credential_proposal := p.preview_spec
                cred_def_id := some p.cred_def_id }
            credential_offer_dict := some ()
            auto_offer := none
            auto_issue := p.auto_issue
            auto_remove := p.auto_remove
            trace := p.trace_msg
            error_msg := none } ∧ msg = .offer 0 := by
  cases d with
  | false => simp [_create_free_offer] at h
  | true =>
    cases f with
    | some k => simp [_create_free_offer] at h
    | none =>
      simp [_create_free_offer, managerCreateOffer] at h
      exact ⟨h.1.symm, h.2.symm⟩

/-- C10: a store-credential request whose body is absent, invalid JSON,
or JSON null behaves exactly like one with an empty body (credential_id
treated as absent), and the bound-offer request treats an absent body as
an empty body. -/
theorem C10_body_parsing_tolerant :
    (∀ env : StoreEnv,
      credential_exchange_store { env with body := .absent } =
        credential_exchange_store { env with body := .obj none } ∧
      credential_exchange_store { env with body := .invalid } =
        credential_exchange_store { env with body := .obj none } ∧
      credential_exchange_store { env with body := .nullJson } =
        credential_exchange_store { env with body := .obj none }) ∧
    (∀ env : BoundOfferEnv,
      credential_exchange_send_bound_offer { env with body := .absent } =
        credential_exchange_send_bound_offer { env with body := .obj none }) :=
  ⟨fun _ => ⟨rfl, rfl, rfl⟩, fun _ => rfl⟩

/-- C4: an inbound proposal on a ready connection whose resulting record
has `auto_offer` set makes the handler invoke the manager's
`create_offer` immediately; when that call and the reply dispatch
succeed, the offer message is sent as a reply with no further input. -/
theorem C4_auto_offer_continuation (env : HandlerEnv) (rec : Record)
    (hready : env.connection_ready = true)
    (hrec : env.receive_proposal = .ok rec)
    (hauto : truthy rec.auto_offer = true) :
    Event.mgrCreateOffer none ∈ (handle env).events ∧
    (∀ rec2 msg, env.create_offer = .ok (rec2, msg) →
      env.send_reply = .ok () →
      handle env = ⟨.ok,
        [.mgrReceiveProposal, .mgrCreateOffer none, .outbound msg],
        some rec2⟩) := by
  constructor
  · unfold handle handlerContinuationCatch
    simp only [hready, hrec, hauto, if_true]
    cases hco : env.create_offer with
    | ok pair =>
      obtain ⟨rec2, msg⟩ := pair
      cases hsr : env.send_reply with
      | ok u => simp
      | error k =>
        cases hse : env.save_error_state <;>
          by_cases h1 : caughtBy [ErrKind.credManagerError,
            ErrKind.indyIssuerError, ErrKind.ledgerError] k = true <;>
          by_cases h2 : caughtBy [ErrKind.storageError] k = true <;>
          simp [h1, h2]
    | error k =>
      cases hse : env.save_error_state <;>
        by_cases h1 : caughtBy [ErrKind.credManagerError,
          ErrKind.indyIssuerError, ErrKind.ledgerError] k = true <;>
        by_cases h2 : caughtBy [ErrKind.storageError] k = true <;>
        simp [h1, h2]
  · intro rec2 msg hco hsr
    unfold handle
    simp only [hready, hrec, hauto, hco, hsr, if_true]

/-- C3: when automatic offer creation after an inbound proposal fails
with a manager, issuer, or ledger error, the handler logs the failure and
writes error state onto the record; the failure itself never escapes to
the transport — the handler only returns abnormally if saving error state
itself fails, and then with that storage failure. -/
theorem C3_continuation_error_contained (env : HandlerEnv) (rec : Record)
    (k : ErrKind) (hready : env.connection_ready = true)
    (hrec : env.receive_proposal = .ok rec)
    (hauto : truthy rec.auto_offer = true)
    (hfail : env.create_offer = .error k)
    (hk : caughtBy [.credManagerError, .indyIssuerError, .ledgerError] k
      = true) :
    Event.logged ∈ (handle env).events ∧
    Event.saveErrorState k.message ∈ (handle env).events ∧
    (env.save_error_state = .ok () → (handle env).result = .ok) ∧
    (∀ f, (handle env).result = .fail f →
      ∃ k2, f = .uncaught k2 ∧ env.save_error_state = .error k2) := by
  unfold handle handlerContinuationCatch
  simp only [hready, hrec, hauto, hfail, hk, if_true]
  cases hse : env.save_error_state with
  | ok u => simp
  | error k2 => simp

/-- Any record the create-free-offer route reports as stored comes from a
successful `_create_free_offer` on the parameters assembled from the
request body and settings. -/
theorem create_free_offer_stored (env : CreateFreeOfferEnv) (rec : Record)
    (h : (credential_exchange_create_free_offer env).stored = some rec) :
    ∃ cdi pv msg, env.body.cred_def_id = some cdi ∧
      env.body.preview_spec = some pv ∧
      _create_free_offer
        { cred_def_id := cdi
          connection_id := env.body.connection_id
          auto_issue := resolveAutoIssue env.body env.auto_respond_setting
          auto_remove := env.body.auto_remove
          preview_spec := some pv
          comment := env.body.comment
          trace_msg := env.body.trace }
        env.preview_deser_ok env.offer_failure = .ok (rec, msg) := by
  unfold credential_exchange_create_free_offer at h
  split at h
  · simp at h
  next cdi hcdi =>
    split at h
    · simp at h
    next pv hpv =>
      split at h
      · split at h <;> simp at h
      next u hdid =>
        split at h
        · split at h
          next k heq =>
            split at h
            · split at h <;> simp at h
            · simp at h
          next rec0 msg0 heq =>
            simp at h
            subst h
            exact ⟨cdi, pv, msg0, hcdi, hpv, heq⟩
        · simp at h

/-- Any record the send-free-offer route reports as stored comes from a
successful `_create_free_offer` on the parameters assembled from the
request body and settings. -/
theorem send_free_offer_stored (env : SendFreeOfferEnv) (rec : Record)
    (h : (credential_exchange_send_free_offer env).stored = some rec) :
    ∃ cdi pv msg, env.body.cred_def_id = some cdi ∧
      env.body.preview_spec = some pv ∧
      _create_free_offer
        { cred_def_id := cdi
          connection_id := env.body.connection_id
          auto_issue := resolveAutoIssue env.body env.auto_respond_setting
          auto_remove := env.body.auto_remove
          preview_spec := some pv
          comment := env.body.comment
          trace_msg := env.body.trace }
        env.preview_deser_ok env.offer_failure = .ok (rec, msg) := by
  unfold credential_exchange_send_free_offer at h
  split at h
  · simp at h
  next cdi hcdi =>
    split at h
    · simp at h
    next pv hpv =>
      split at h
      next k hk => split at h <;> simp at h
      next u hu =>
        split at h
        · split at h
          next k heq => split at h <;> simp at h
          next rec0 msg0 heq =>
            simp at h
            subst h
            exact ⟨cdi, pv, msg0, hcdi, hpv, heq⟩
        · simp at h

/-- C9: whatever the request input, a free-offer creation yields an
exchange record with initiator SELF and role ISSUER, fixed at creation. -/
theorem C9_free_offer_initiator_role (p : FreeOfferParams) (d : Bool)
    (f : Option ErrKind) (rec : Record) (msg : Msg)
    (h : _create_free_offer p d f = .ok (rec, msg)) :
    rec.initiator = .self ∧ rec.role = .issuer := by
  obtain ⟨hrec, -⟩ := free_offer_ok_fields p d f rec msg h
  rw [hrec]
  exact ⟨rfl, rfl⟩

/-- Witness for C9: the sample free offer succeeds and its record has
initiator SELF and role ISSUER. -/
theorem C9_free_offer_initiator_role_witness :
    _create_free_offer freeOfferParamsSample true none =
      .ok (freeOfferSampleRecord, .offer 0) ∧
    freeOfferSampleRecord.initiator = .self ∧
    freeOfferSampleRecord.role = .issuer :=
  ⟨rfl, C9_free_offer_initiator_role freeOfferParamsSample true none
    freeOfferSampleRecord (.offer 0) rfl⟩

/-- C8: for both free-offer routes, the created record's `auto_issue`
flag equals the request-body value when the body carries one, and the
`debug.auto_respond_credential_request` setting only when it does not. -/
theorem C8_auto_issue_resolution :
    (∀ (env : CreateFreeOfferEnv) (rec : Record),
      (credential_exchange_create_free_offer env).stored = some rec →
      (env.body.auto_issue_present = true →
        rec.auto_issue = env.body.auto_issue_value) ∧
      (env.body.auto_issue_present = false →
        rec.auto_issue = env.auto_respond_setting)) ∧
    (∀ (env : SendFreeOfferEnv) (rec : Record),
      (credential_exchange_send_free_offer env).stored = some rec →
      (env.body.auto_issue_present = true →
        rec.auto_issue = env.body.auto_issue_value) ∧
      (env.body.auto_issue_present = false →
        rec.auto_issue = env.auto_respond_setting)) := by
  constructor
  · intro env rec h
    obtain ⟨cdi, pv, msg, hcdi, hpv, hoff⟩ := create_free_offer_stored env rec h
    obtain ⟨hrec, -⟩ := free_offer_ok_fields _ _ _ _ _ hoff
    rw [hrec]
    constructor <;> intro hp <;> simp [resolveAutoIssue, hp]
  · intro env rec h
    obtain ⟨cdi, pv, msg, hcdi, hpv, hoff⟩ := send_free_offer_stored env rec h
    obtain ⟨hrec, -⟩ := free_offer_ok_fields _ _ _ _ _ hoff
    rw [hrec]
    constructor <;> intro hp <;> simp [resolveAutoIssue, hp]

/-- Witness for C8: with `auto_issue` present in the body the created
record takes the body's value; with it absent the record takes the
process-wide setting. -/
theorem C8_auto_issue_resolution_witness :
    (credential_exchange_create_free_offer createFreeOfferEnvSample).stored =
      some freeOfferSampleRecord ∧
    freeOfferSampleRecord.auto_issue =
      createFreeOfferEnvSample.body.auto_issue_value ∧
    (credential_exchange_send_free_offer sendFreeOfferEnvSample).stored =
      some sendFreeOfferSampleRecord ∧
    sendFreeOfferSampleRecord.auto_issue =
      sendFreeOfferEnvSample.auto_respond_setting :=
  ⟨rfl,
   (C8_auto_issue_resolution.1 createFreeOfferEnvSample freeOfferSampleRecord
     rfl).1 rfl,
   rfl,
   (C8_auto_issue_resolution.2 sendFreeOfferEnvSample sendFreeOfferSampleRecord
     rfl).2 rfl⟩

/-- Counterexample to C6 as stated: the sample free-offer creation
succeeds and its record's `credential_proposal_dict` is populated, not
unset. -/
theorem C6_counterexample :
    freeOfferProposalDict freeOfferParamsSample true none ≠ none ∧
    freeOfferProposalDict freeOfferParamsSample true none ≠ some none ∧
    freeOfferProposalDict freeOfferParamsSample true none = some (some
      { comment := some "free offer"
        credential_proposal := some ⟨[("legalName", "Acme")]⟩
        cred_def_id := some "CD" }) := by
  refine ⟨by decide, by decide, rfl⟩

/-- C6 (amended): a free offer's record carries a proposal snapshot
synthesized from the request — `credential_proposal_dict` is set to the
proposal built from the preview, comment and cred-def id — and its
`connection_id` is exactly the requested one, which may be null. -/
theorem C6_amended_free_offer_snapshot (p : FreeOfferParams) (d : Bool)
    (f : Option ErrKind) (rec : Record) (msg : Msg)
    (h : _create_free_offer p d f = .ok (rec, msg)) :
    rec.credential_proposal_dict = some
      { comment := p.comment
        credential_proposal := p.preview_spec
        cred_def_id := some p.cred_def_id } ∧
    rec.connection_id = p.connection_id := by
  obtain ⟨hrec, -⟩ := free_offer_ok_fields p d f rec msg h
  rw [hrec]
  exact ⟨rfl, rfl⟩

/-- Witness for the amended C6 at the sample free offer. -/
theorem C6_amended_free_offer_snapshot_witness :
    _create_free_offer freeOfferParamsSample true none =
      .ok (freeOfferSampleRecord, .offer 0) ∧
    freeOfferSampleRecord.credential_proposal_dict = some
      { comment := some "free offer"
        credential_proposal := some ⟨[("legalName", "Acme")]⟩
        cred_def_id := some "CD" } ∧
    freeOfferSampleRecord.connection_id = none :=
  ⟨rfl,
   (C6_amended_free_offer_snapshot freeOfferParamsSample true none
     freeOfferSampleRecord (.offer 0) rfl).1,
   (C6_amended_free_offer_snapshot freeOfferParamsSample true none
     freeOfferSampleRecord (.offer 0) rfl).2⟩

/-- Witness for C4 at a concrete environment. -/
theorem C4_auto_offer_continuation_witness :
    Event.mgrCreateOffer none ∈ (handle handlerAutoOfferEnv).events ∧
    handle handlerAutoOfferEnv = ⟨.ok,
      [.mgrReceiveProposal, .mgrCreateOffer none, .outbound (.offer 0)],
      some offeredRecord⟩ := by
  obtain ⟨h1, h2⟩ := C4_auto_offer_continuation handlerAutoOfferEnv
    sampleRecord rfl rfl rfl
  exact ⟨h1, h2 offeredRecord (.offer 0) rfl rfl⟩

/-- Witness for C3 at a concrete environment. -/
theorem C3_continuation_error_contained_witness :
    Event.logged ∈ (handle handlerManagerFailEnv).events ∧
    Event.saveErrorState (ErrKind.message .ledgerError) ∈
      (handle handlerManagerFailEnv).events ∧
    (handle handlerManagerFailEnv).result = .ok := by
  obtain ⟨h1, h2, h3, -⟩ := C3_continuation_error_contained
    handlerManagerFailEnv sampleRecord .ledgerError rfl rfl rfl rfl rfl
  exact ⟨h1, h2, h3 rfl⟩

/-- Counterexample to C1 as stated: a storage failure raised by the
manager's `create_offer` during automatic continuation after a proposal
is logged and swallowed — the handler returns normally instead of
propagating it to its caller. -/
theorem C1_counterexample :
    handle handlerStorageSwallowEnv =
      ⟨.ok, [.mgrReceiveProposal, .mgrCreateOffer none, .logged],
        some sampleRecord⟩ := by
  decide

/-- C1 (amended): storage failures are propagated — from the receive step
of the proposal handler, from saving error state during its automatic
continuation, and from the admin routes (surfaced as HTTP errors) — with
one exception: a storage failure raised by offer creation or reply
dispatch inside the proposal handler's automatic continuation is logged
and swallowed. -/
theorem C1_amended_storage_propagation :
    (∀ (env : HandlerEnv) (k : ErrKind), env.connection_ready = true →
      env.receive_proposal = .error k →
      (handle env).result = .fail (.uncaught k)) ∧
    (∀ (env : HandlerEnv) (rec : Record) (k k2 : ErrKind),
      env.connection_ready = true → env.receive_proposal = .ok rec →
      truthy rec.auto_offer = true → env.create_offer = .error k →
      caughtBy [.credManagerError, .indyIssuerError, .ledgerError] k = true →
      env.save_error_state = .error k2 →
      (handle env).result = .fail (.uncaught k2)) ∧
    (∀ (env : HandlerEnv) (rec : Record) (k : ErrKind),
      env.connection_ready = true → env.receive_proposal = .ok rec →
      truthy rec.auto_offer = true → env.create_offer = .error k →
      caughtBy [.storageError] k = true →
      (handle env).result = .ok ∧ Event.logged ∈ (handle env).events) ∧
    (∀ (env : SendEnv) (k : ErrKind), env.has_preview = true →
      env.preview_deser = .ok () → env.conn_retrieve = .ok () →
      env.is_ready = true → env.prepare_send = .error k →
      caughtBy [.storageError] k = true →
      (credential_exchange_send env).result =
        .fail (.badRequest (some k))) ∧
    (∀ (env : StoreEnv) (rec : Record) (k : ErrKind),
      env.retrieve = .ok rec → env.conn_retrieve = .ok () →
      env.is_ready = true → env.store_credential = .error k →
      caughtBy [.storageError] k = true →
      (credential_exchange_store env).result =
        .fail (.badRequest (some k))) := by
  refine ⟨?_, ?_, ?_, ?_, ?_⟩
  · intro env k hready hrec
    unfold handle
    simp [hready, hrec]
  · intro env rec k k2 hready hrec hauto hfail hk hse
    unfold handle handlerContinuationCatch
    simp [hready, hrec, hauto, hfail, hk, hse]
  · intro env rec k hready hrec hauto hfail hk
    cases k <;> try exact absurd hk (by decide)
    case storageError =>
      have hm : caughtBy [ErrKind.credManagerError, ErrKind.indyIssuerError,
          ErrKind.ledgerError] ErrKind.storageError = false := by decide
      unfold handle handlerContinuationCatch
      simp [hready, hrec, hauto, hfail, hm, hk]
    case storageNotFoundError =>
      have hm : caughtBy [ErrKind.credManagerError, ErrKind.indyIssuerError,
          ErrKind.ledgerError] ErrKind.storageNotFoundError = false := by
        decide
      unfold handle handlerContinuationCatch
      simp [hready, hrec, hauto, hfail, hm, hk]
  · intro env k hprev hdeser hconn hready hps hk
    cases k <;> try exact absurd hk (by decide)
    case storageError =>
      have hc : caughtBy sendClauses ErrKind.storageError = true := by decide
      unfold credential_exchange_send
      simp [hprev, hdeser, hconn, hready, hps, hc, internal_error]
    case storageNotFoundError =>
      have hc : caughtBy sendClauses ErrKind.storageNotFoundError = true := by
        decide
      unfold credential_exchange_send
      simp [hprev, hdeser, hconn, hready, hps, hc, internal_error]
  · intro env rec k hret hconn hready hsc hk
    cases k <;> try exact absurd hk (by decide)
    case storageError =>
      have hc : caughtBy storeClauses ErrKind.storageError = true := by decide
      unfold credential_exchange_store storeRun
      simp [hret, hconn, hready, hsc, hc, internal_error]
    case storageNotFoundError =>
      have hc : caughtBy storeClauses ErrKind.storageNotFoundError = true := by
        decide
      unfold credential_exchange_store storeRun
      simp [hret, hconn, hready, hsc, hc, internal_error]

/-- Witness for the amended C1 across its cases. -/
theorem C1_amended_storage_propagation_witness :
    (handle handlerReceiveFailEnv).result =
      .fail (.uncaught .storageError) ∧
    (handle handlerSaveFailEnv).result = .fail (.uncaught .storageError) ∧
    ((handle handlerStorageSwallowEnv).result = .ok ∧
      Event.logged ∈ (handle handlerStorageSwallowEnv).events) ∧
    (credential_exchange_send sendStorageFailEnv).result =
      .fail (.badRequest (some .storageError)) ∧
    (credential_exchange_store storeStorageFailEnv).result =
      .fail (.badRequest (some .storageError)) :=
  ⟨C1_amended_storage_propagation.1 handlerReceiveFailEnv .storageError rfl
     rfl,
   C1_amended_storage_propagation.2.1 handlerSaveFailEnv sampleRecord
     .credManagerError .storageError rfl rfl rfl rfl (by decide) rfl,
   C1_amended_storage_propagation.2.2.1 handlerStorageSwallowEnv sampleRecord
     .storageError rfl rfl rfl rfl (by decide),
   C1_amended_storage_propagation.2.2.2.1 sendStorageFailEnv .storageError
     rfl rfl rfl rfl rfl (by decide),
   C1_amended_storage_propagation.2.2.2.2 storeStorageFailEnv sampleRecord
     .storageError rfl rfl rfl rfl (by decide)⟩

/-- Counterexample to C2 as stated: the send operation fails in its
manager call and surfaces an HTTP failure without ever writing error
state onto an exchange record. -/
theorem C2_counterexample :
    (credential_exchange_send sendManagerFailEnv).result =
      .fail (.badRequest (some .credManagerError)) ∧
    (credential_exchange_send sendManagerFailEnv).events.any
      Event.isSaveErrorState = false := by
  decide

/-- C2 (amended): of the failing administrative operations, only
send-bound-offer, send-request, and issue invoke the error-state path
(`save_error_state`) on the exchange record before surfacing the failure;
send, store, problem-report, and remove surface their failures (through
the problem-report/internal-error path or directly) without writing error
state onto the record. -/
theorem C2_amended_error_state_path :
    (∀ (env : BoundOfferEnv) (rec : Record) (k : ErrKind),
      env.body = .obj none → env.retrieve = .ok rec →
      rec.state = some .proposalReceived → env.conn_retrieve = .ok () →
      env.is_ready = true → env.create_offer = .error k →
      caughtBy boundOfferClauses k = true → env.save_error_state_ok = true →
      (credential_exchange_send_bound_offer env).result =
        .fail (.badRequest (some k)) ∧
      Event.saveErrorState k.message ∈
        (credential_exchange_send_bound_offer env).events) ∧
    (∀ (env : SendRequestEnv) (rec : Record) (k : ErrKind),
      env.retrieve = .ok rec → env.conn_retrieve = .ok () →
      env.is_ready = true → env.create_request = .error k →
      caughtBy sendRequestClauses k = true → env.save_error_state_ok = true →
      (credential_exchange_send_request env).result =
        .fail (.badRequest (some k)) ∧
      Event.saveErrorState k.message ∈
        (credential_exchange_send_request env).events) ∧
    (∀ (env : IssueEnv) (rec : Record) (k : ErrKind) (c : Option String),
      env.body = .obj c → env.retrieve = .ok rec →
      env.conn_retrieve = .ok () → env.is_ready = true →
      env.issue_credential = .error k → caughtBy issueClauses k = true →
      env.save_error_state_ok = true →
      (credential_exchange_issue env).result =
        .fail (.badRequest (some k)) ∧
      Event.saveErrorState k.message ∈
        (credential_exchange_issue env).events) ∧
    (∀ (env : SendEnv) (k : ErrKind), env.has_preview = true →
      env.preview_deser = .ok () → env.conn_retrieve = .ok () →
      env.is_ready = true → env.prepare_send = .error k →
      caughtBy sendClauses k = true →
      (credential_exchange_send env).result =
        .fail (.badRequest (some k)) ∧
      (credential_exchange_send env).events.any Event.isSaveErrorState
        = false) ∧
    (∀ (env : StoreEnv) (rec : Record) (k : ErrKind),
      env.retrieve = .ok rec → env.conn_retrieve = .ok () →
      env.is_ready = true → env.store_credential = .error k →
      caughtBy storeClauses k = true →
      (credential_exchange_store env).result =
        .fail (.badRequest (some k)) ∧
      (credential_exchange_store env).events.any Event.isSaveErrorState
        = false) ∧
    (∀ env : ProblemReportEnv,
      (credential_exchange_problem_report env).events.any
        Event.isSaveErrorState = false) ∧
    (∀ env : RemoveEnv,
      (credential_exchange_remove env).events.any Event.isSaveErrorState
        = false) := by
  refine ⟨?_, ?_, ?_, ?_, ?_, ?_, ?_⟩
  · intro env rec k hb hr hst hconn hready hco hk hsave
    simp [credential_exchange_send_bound_offer, boundOfferParse,
      boundOfferRun, boundOfferCatch, hb, hr, hst, hconn, hready, hco, hk,
      hsave, internal_error]
  · intro env rec k hr hconn hready hcr hk hsave
    simp [credential_exchange_send_request, sendRequestCatch, hr, hconn,
      hready, hcr, hk, hsave, internal_error]
  · intro env rec k c hb hr hconn hready hic hk hsave
    simp [credential_exchange_issue, issueCatch, hb, hr, hconn, hready,
      hic, hk, hsave, internal_error]
  · intro env k hprev hdeser hconn hready hps hk
    simp [credential_exchange_send, hprev, hdeser, hconn, hready, hps, hk,
      internal_error, Event.isSaveErrorState]
  · intro env rec k hr hconn hready hsc hk
    simp [credential_exchange_store, storeRun, hr, hconn, hready, hsc, hk,
      internal_error, Event.isSaveErrorState]
  · intro env
    obtain ⟨body, ready, ret, cpr⟩ := env
    cases body with
    | invalid => simp [credential_exchange_problem_report]
    | obj desc =>
      cases ret with
      | error k =>
        by_cases h1 : k = ErrKind.storageNotFoundError <;>
          by_cases h2 : caughtBy [ErrKind.storageError] k = true <;>
          simp [credential_exchange_problem_report, h1, h2, internal_error,
            Event.isSaveErrorState]
      | ok rec =>
        cases desc with
        | none => simp [credential_exchange_problem_report]
        | some d =>
          cases cpr with
          | error k =>
            by_cases h1 : k = ErrKind.storageNotFoundError <;>
              by_cases h2 : caughtBy [ErrKind.storageError] k = true <;>
              simp [credential_exchange_problem_report, h1, h2,
                internal_error, Event.isSaveErrorState]
          | ok msg =>
            simp [credential_exchange_problem_report, Event.isSaveErrorState]
  · intro env
    obtain ⟨ret, del⟩ := env
    cases ret with
    | error k =>
      by_cases h1 : k = ErrKind.storageNotFoundError <;>
        by_cases h2 : caughtBy [ErrKind.storageError] k = true <;>
        simp [credential_exchange_remove, h1, h2, internal_error,
          Event.isSaveErrorState]
    | ok rec =>
      cases del with
      | error k =>
        by_cases h1 : k = ErrKind.storageNotFoundError <;>
          by_cases h2 : caughtBy [ErrKind.storageError] k = true <;>
          simp [credential_exchange_remove, h1, h2, internal_error,
            Event.isSaveErrorState]
      | ok u => simp [credential_exchange_remove, Event.isSaveErrorState]

/-- Witness for the amended C2 across its cases. -/
theorem C2_amended_error_state_path_witness :
    ((credential_exchange_send_bound_offer boundOfferMgrFailEnv).result =
      .fail (.badRequest (some .ledgerError)) ∧
     Event.saveErrorState (ErrKind.message .ledgerError) ∈
      (credential_exchange_send_bound_offer boundOfferMgrFailEnv).events) ∧
    (Event.saveErrorState (ErrKind.message .ledgerError) ∈
      (credential_exchange_send_request sendRequestFailEnv).events) ∧
    (Event.saveErrorState (ErrKind.message .indyIssuerError) ∈
      (credential_exchange_issue issueFailEnv).events) ∧
    ((credential_exchange_send sendManagerFailEnv).events.any
      Event.isSaveErrorState = false) ∧
    ((credential_exchange_store storeStorageFailEnv).events.any
      Event.isSaveErrorState = false) ∧
    ((credential_exchange_problem_report problemReportEnvSample).events.any
      Event.isSaveErrorState = false) ∧
    ((credential_exchange_remove removeEnvSample).events.any
      Event.isSaveErrorState = false) :=
  ⟨C2_amended_error_state_path.1 boundOfferMgrFailEnv sampleRecord
     .ledgerError rfl rfl rfl rfl rfl rfl (by decide) rfl,
   (C2_amended_error_state_path.2.1 sendRequestFailEnv sampleRecord
     .ledgerError rfl rfl rfl rfl (by decide) rfl).2,
   (C2_amended_error_state_path.2.2.1 issueFailEnv sampleRecord
     .indyIssuerError none rfl rfl rfl rfl rfl (by decide) rfl).2,
   (C2_amended_error_state_path.2.2.2.1 sendManagerFailEnv
     .credManagerError rfl rfl rfl rfl rfl (by decide)).2,
   (C2_amended_error_state_path.2.2.2.2.1 storeStorageFailEnv sampleRecord
     .storageError rfl rfl rfl rfl (by decide)).2,
   C2_amended_error_state_path.2.2.2.2.2.1 problemReportEnvSample,
   C2_amended_error_state_path.2.2.2.2.2.2 removeEnvSample⟩

/-- Counterexample to C5 as stated: the second bound-offer call fails
with the state-conflict error, but the stored record after both calls
differs from the record after the first call — the error path wrote
`error_msg` onto it. -/
theorem C5_counterexample :
    (credential_exchange_send_bound_offer boundOfferEnvFirst).result =
      .ok ∧
    (credential_exchange_send_bound_offer boundOfferEnvFirst).stored =
      some offeredRecord ∧
    (credential_exchange_send_bound_offer boundOfferEnvSecond).result =
      .fail (.badRequest (some .credManagerError)) ∧
    (credential_exchange_send_bound_offer boundOfferEnvSecond).stored ≠
      (credential_exchange_send_bound_offer boundOfferEnvFirst).stored := by
  decide

/-- C5 (amended): a bound-offer call against a record not in
PROPOSAL_RECEIVED fails with the manager's state-conflict error before
any manager call or offer emission, leaving protocol state and message
snapshots untouched; the stored record equals the prior record except
that `error_msg` is set by the error path. -/
theorem C5_amended_bound_offer_conflict (env : BoundOfferEnv) (rec : Record)
    (c : Option CredentialProposal) (hb : env.body = .obj c)
    (hr : env.retrieve = .ok rec)
    (hs : ¬ rec.state = some .proposalReceived)
    (hsave : env.save_error_state_ok = true) :
    (credential_exchange_send_bound_offer env).result =
      .fail (.badRequest (some .credManagerError)) ∧
    (credential_exchange_send_bound_offer env).events.any Event.isMgrCall
      = false ∧
    (credential_exchange_send_bound_offer env).events.any Event.isOutbound
      = false ∧
    (credential_exchange_send_bound_offer env).stored = some
      { rec with error_msg := some (ErrKind.message .credManagerError) } := by
  simp [credential_exchange_send_bound_offer, boundOfferParse, boundOfferRun,
    boundOfferCatch, Record.save_error_state, hb, hr, hs, hsave,
    internal_error, Event.isMgrCall, Event.isOutbound]

/-- Witness for the amended C5 at the second bound-offer call. -/
theorem C5_amended_bound_offer_conflict_witness :
    (credential_exchange_send_bound_offer boundOfferEnvSecond).result =
      .fail (.badRequest (some .credManagerError)) ∧
    (credential_exchange_send_bound_offer boundOfferEnvSecond).events.any
      Event.isMgrCall = false ∧
    (credential_exchange_send_bound_offer boundOfferEnvSecond).events.any
      Event.isOutbound = false ∧
    (credential_exchange_send_bound_offer boundOfferEnvSecond).stored = some
      { offeredRecord with
          error_msg := some (ErrKind.message .credManagerError) } :=
  C5_amended_bound_offer_conflict boundOfferEnvSecond offeredRecord none
    rfl rfl (by decide) rfl

/-- Counterexample to C7 as stated: the problem-report admin operation
dispatches over the record's connection yet, with that connection not
ready, still completes — it invokes the Manager and emits the report
instead of failing fast with a connection-not-ready error. -/
theorem C7_counterexample :
    problemReportEnvSample.is_ready = false ∧
    (credential_exchange_problem_report problemReportEnvSample).result =
      .ok ∧
    (credential_exchange_problem_report problemReportEnvSample).events.any
      Event.isMgrCall = true ∧
    Event.outbound (.problemReport 0) ∈
      (credential_exchange_problem_report problemReportEnvSample).events := by
  decide

/-- C7 (amended): the inbound-proposal handler and every connection-bound
admin operation except problem-report fail fast on an unready connection
— with a connection-not-ready error, before any Manager call or record
mutation; the problem-report operation never consults readiness and, on
an unready connection, still calls the Manager and dispatches the
report. -/
theorem C7_amended_connection_ready_gate :
    (∀ env : HandlerEnv, env.connection_ready = false →
      handle env = ⟨.fail .handlerException, [], none⟩) ∧
    (∀ env : SendEnv, env.has_preview = true → env.preview_deser = .ok () →
      env.conn_retrieve = .ok () → env.is_ready = false →
      credential_exchange_send env = ⟨.fail .forbidden, [], none⟩) ∧
    (∀ env : SendProposalEnv, env.preview_deser = .ok () →
      env.conn_retrieve = .ok () → env.is_ready = false →
      credential_exchange_send_proposal env = ⟨.fail .forbidden, [], none⟩) ∧
    (∀ (env : SendFreeOfferEnv) (cdi : String) (pv : CredentialPreview),
      env.body.cred_def_id = some cdi → env.body.preview_spec = some pv →
      env.conn_retrieve = .ok () → env.is_ready = false →
      credential_exchange_send_free_offer env =
        ⟨.fail .forbidden, [], none⟩) ∧
    (∀ (env : BoundOfferEnv) (rec : Record) (c : Option CredentialProposal),
      env.body = .obj c → env.retrieve = .ok rec →
      rec.state = some .proposalReceived → env.conn_retrieve = .ok () →
      env.is_ready = false →
      credential_exchange_send_bound_offer env =
        ⟨.fail .forbidden, [], some rec⟩) ∧
    (∀ (env : SendRequestEnv) (rec : Record), env.retrieve = .ok rec →
      env.conn_retrieve = .ok () → env.is_ready = false →
      credential_exchange_send_request env =
        ⟨.fail .forbidden, [], some rec⟩) ∧
    (∀ (env : IssueEnv) (rec : Record) (c : Option String),
      env.body = .obj c → env.retrieve = .ok rec →
      env.conn_retrieve = .ok () → env.is_ready = false →
      credential_exchange_issue env = ⟨.fail .forbidden, [], some rec⟩) ∧
    (∀ (env : StoreEnv) (rec : Record), env.retrieve = .ok rec →
      env.conn_retrieve = .ok () → env.is_ready = false →
      credential_exchange_store env = ⟨.fail .forbidden, [], some rec⟩) ∧
    (∀ (env : ProblemReportEnv) (rec : Record) (d : String) (msg : Msg),
      env.body = .obj (some d) → env.retrieve = .ok rec →
      env.create_problem_report = .ok msg →
      credential_exchange_problem_report env =
        ⟨.ok, [.mgrProblemReport d, .outbound msg], some rec⟩) := by
  refine ⟨?_, ?_, ?_, ?_, ?_, ?_, ?_, ?_, ?_⟩
  · intro env h
    simp [handle, h]
  · intro env hprev hdeser hconn hready
    simp [credential_exchange_send, hprev, hdeser, hconn, hready]
  · intro env hdeser hconn hready
    cases hp : env.has_preview <;>
      simp [credential_exchange_send_proposal, hp, hdeser, hconn, hready]
  · intro env cdi pv hcdi hpv hconn hready
    simp [credential_exchange_send_free_offer, hcdi, hpv, hconn, hready]
  · intro env rec c hb hr hst hconn hready
    simp [credential_exchange_send_bound_offer, boundOfferParse,
      boundOfferRun, hb, hr, hst, hconn, hready]
  · intro env rec hr hconn hready
    simp [credential_exchange_send_request, hr, hconn, hready]
  · intro env rec c hb hr hconn hready
    simp [credential_exchange_issue, hb, hr, hconn, hready]
  · intro env rec hr hconn hready
    simp [credential_exchange_store, storeRun, hr, hconn, hready]
  · intro env rec d msg hb hr hcpr
    simp [credential_exchange_problem_report, hb, hr, hcpr]

/-- Witness for the amended C7 across its cases. -/
theorem C7_amended_connection_ready_gate_witness :
    handle handlerNotReadyEnv = ⟨.fail .handlerException, [], none⟩ ∧
    credential_exchange_send sendNotReadyEnv =
      ⟨.fail .forbidden, [], none⟩ ∧
    credential_exchange_send_proposal sendProposalNotReadyEnv =
      ⟨.fail .forbidden, [], none⟩ ∧
    credential_exchange_send_free_offer sendFreeOfferNotReadyEnv =
      ⟨.fail .forbidden, [], none⟩ ∧
    credential_exchange_send_bound_offer boundOfferNotReadyEnv =
      ⟨.fail .forbidden, [], some sampleRecord⟩ ∧
    credential_exchange_send_request sendRequestNotReadyEnv =
      ⟨.fail .forbidden, [], some sampleRecord⟩ ∧
    credential_exchange_issue issueNotReadyEnv =
      ⟨.fail .forbidden, [], some sampleRecord⟩ ∧
    credential_exchange_store storeNotReadyEnv =
      ⟨.fail .forbidden, [], some sampleRecord⟩ ∧
    credential_exchange_problem_report problemReportEnvSample =
      ⟨.ok, [.mgrProblemReport "issuance abandoned",
        .outbound (.problemReport 0)], some sampleRecord⟩ :=
  ⟨C7_amended_connection_ready_gate.1 handlerNotReadyEnv rfl,
   C7_amended_connection_ready_gate.2.1 sendNotReadyEnv rfl rfl rfl rfl,
   C7_amended_connection_ready_gate.2.2.1 sendProposalNotReadyEnv rfl rfl
     rfl,
   C7_amended_connection_ready_gate.2.2.2.1 sendFreeOfferNotReadyEnv "CD"
     ⟨[("legalName", "Acme")]⟩ rfl rfl rfl rfl,
   C7_amended_connection_ready_gate.2.2.2.2.1 boundOfferNotReadyEnv
     sampleRecord none rfl rfl rfl rfl rfl,
   C7_amended_connection_ready_gate.2.2.2.2.2.1 sendRequestNotReadyEnv
     sampleRecord rfl rfl rfl,
   C7_amended_connection_ready_gate.2.2.2.2.2.2.1 issueNotReadyEnv
     sampleRecord none rfl rfl rfl rfl,
   C7_amended_connection_ready_gate.2.2.2.2.2.2.2.1 storeNotReadyEnv
     sampleRecord rfl rfl rfl,
   C7_amended_connection_ready_gate.2.2.2.2.2.2.2.2 problemReportEnvSample
     sampleRecord "issuance abandoned" (.problemReport 0) rfl rfl rfl⟩

end Indy

